import Mathlib

/-!
Verification of the churn-analysis pipeline in `telecom_churn_analysis.ipynb`.

The notebook's core is a pandas feature-engineering pass (cell 4), a
train/evaluate loop over three classifiers (cell 8), and a single-record
inference helper (`preprocess_input`, `predict_churn_for_client`).  This file
gives a shallow embedding of those parts and proves or refutes the frozen
claims about them.

A single customer record is modelled as an ordered association list of
column name to cell value (`Row`); a pandas frame is a list of such rows.
Cell values are numerics (rationals, standing for the floats of the source),
strings, or the missing value NaN.  Operations that raise Python exceptions
(KeyError on a missing column) return `Except String`.
-/

namespace TelecomChurn

/-- A pandas cell value: a numeric (float, modelled as a rational), a string,
or the missing value NaN. -/
inductive Value where
  | num : Rat → Value
  | str : String → Value
  | nan : Value
deriving DecidableEq, Repr

/-- One customer record: ordered list of (column name, cell value), as the
columns of a one-row pandas frame. -/
abbrev Row := List (String × Value)

/-- First value stored under column `c`, if the column exists. -/
def lookupCol : Row → String → Option Value
  | [], _ => none
  | (c0, v0) :: rest, c => if c0 = c then some v0 else lookupCol rest c

/-- Column membership, as in `col in frame.columns`. -/
def hasCol (r : Row) (c : String) : Bool :=
  (lookupCol r c).isSome

/-- `frame[c] = v`: overwrite the column in place if present, else append it
as the last column (pandas assignment semantics). -/
def setCol : Row → String → Value → Row
  | [], c, v => [(c, v)]
  | (c0, v0) :: rest, c, v =>
    if c0 = c then (c, v) :: rest else (c0, v0) :: setCol rest c v

/-- Remove the listed columns, keeping the order of the rest. -/
def dropCols (r : Row) (cs : List String) : Row :=
  r.filter (fun p => !(cs.contains p.1))

/-- `frame[c]`: the column's value, or the Python `KeyError` if the frame has
no such column. -/
def getCol (r : Row) (c : String) : Except String Value :=
  match lookupCol r c with
  | some v => Except.ok v
  | none => Except.error ("KeyError: " ++ c)

/-- Line `new_client['internet_service'].fillna('unknown', inplace=True)`
(also cell-4 line `df['internet_service'].fillna('unknown', inplace=True)`):
replace a missing `internet_service` value with the literal category
`"unknown"`, mutating the frame; KeyError if the column is absent. -/
def fillInternetService (r : Row) : Except String Row :=
  match getCol r "internet_service" with
  | Except.error e => Except.error e
  | Except.ok v =>
    Except.ok (setCol r "internet_service"
      (if v = Value.nan then Value.str "unknown" else v))

/-- `Series.replace(0, np.nan)` applied to one cell. -/
def replaceZeroNaN (v : Value) : Value :=
  if v = Value.num 0 then Value.nan else v

/-- Element-wise pandas division of two cells.  A NaN operand propagates NaN.
In this pipeline the denominator is always either NaN (a zero tenure after
`replace(0, np.nan)`) or a nonzero numeric, so the `a / b` branch never
divides by zero. -/
def valueDiv (x y : Value) : Value :=
  match x, y with
  | Value.num a, Value.num b => Value.num (a / b)
  | _, _ => Value.nan

/-- Line `frame['avg_monthly_charge'] = frame['total_charges'] /
frame['tenure'].replace(0, np.nan)` (cell-4 line 67 and `preprocess_input`
line 166 are textually identical, so both are embedded by this one
definition).  Python evaluates `frame['total_charges']` first, so a frame
missing both columns reports `total_charges`. -/
def addAvgMonthlyCharge (r : Row) : Except String Row :=
  match getCol r "total_charges" with
  | Except.error e => Except.error e
  | Except.ok tc =>
    match getCol r "tenure" with
    | Except.error e => Except.error e
    | Except.ok ten =>
      Except.ok (setCol r "avg_monthly_charge" (valueDiv tc (replaceZeroNaN ten)))

/-- The lambda of `frame['contract_type'].apply(lambda x: 1 if x ==
'month-to-month' else 0)`. -/
def isShortContract (x : Value) : Value :=
  if x = Value.str "month-to-month" then Value.num 1 else Value.num 0

/-- Line `frame['is_short_contract'] = frame['contract_type'].apply(...)`
(cell-4 line 68 and `preprocess_input` line 167, textually identical). -/
def addIsShortContract (r : Row) : Except String Row :=
  match getCol r "contract_type" with
  | Except.error e => Except.error e
  | Except.ok ct => Except.ok (setCol r "is_short_contract" (isShortContract ct))

/-- String order used by pandas when it sorts the category values of an
object column (lexicographic). -/
def strLe (a b : String) : Bool :=
  match compare a b with
  | Ordering.gt => false
  | _ => true

/-- Insert into a `strLe`-sorted list. -/
def insertSortedStr (s : String) : List String → List String
  | [] => [s]
  | t :: ts => if strLe s t then s :: t :: ts else t :: insertSortedStr s ts

/-- Insertion sort by `strLe`. -/
def sortStr : List String → List String
  | [] => []
  | s :: ss => insertSortedStr s (sortStr ss)

/-- The sorted distinct category values of column `c` over a frame, as
`pd.get_dummies` computes them for an object column.  NaN and non-string
cells are not categories (the frames encoded here hold string categories;
NaN is excluded because `dummy_na` defaults to False). -/
def colCategories (rows : List Row) (c : String) : List String :=
  sortStr ((rows.filterMap (fun r =>
    match lookupCol r c with
    | some (Value.str s) => some s
    | _ => none)).dedup)

/-- For each encoded column, the indicator categories it keeps: all sorted
categories except the first (`drop_first=True`). -/
def dummySpecs (rows : List Row) (cols : List String) : List (String × List String) :=
  cols.map (fun c => (c, (colCategories rows c).tail))

/-- Encode one row: the encoded columns are removed and, at the end of the
row, one indicator column `col_cat` per kept category is appended, holding 1
when the cell equals that category and 0 otherwise. -/
def encodeRow (specs : List (String × List String)) (r : Row) : Row :=
  dropCols r (specs.map Prod.fst) ++
    (specs.map (fun sp => sp.2.map (fun cat =>
      (sp.1 ++ "_" ++ cat,
        if lookupCol r sp.1 = some (Value.str cat)
        then Value.num 1 else Value.num 0)))).flatten

/-- `pd.get_dummies(frame, columns=cols, drop_first=True)`: the kept
categories of each encoded column are computed over the whole frame, then
every row is encoded against them. -/
def get_dummies (rows : List Row) (cols : List String) : List Row :=
  rows.map (encodeRow (dummySpecs rows cols))

/-- `pd.get_dummies` on a one-row frame, as `preprocess_input` calls it: the
categories are taken from that single row alone. -/
def get_dummies_row (r : Row) (cols : List String) : Row :=
  encodeRow (dummySpecs [r] cols) r

/-- The dict literal `{'No': 0, 'Yes': 1}` of cell-4 line 70. -/
def churnDict : List (Value × Value) :=
  [(Value.str "No", Value.num 0), (Value.str "Yes", Value.num 1)]

/-- Dict lookup by key equality. -/
def lookupValue : List (Value × Value) → Value → Option Value
  | [], _ => none
  | (k, x) :: rest, v => if k = v then some x else lookupValue rest v

/-- `Series.map(dict)` on one cell: a value that is not a key of the dict is
mapped to NaN. -/
def seriesMapDict (d : List (Value × Value)) (v : Value) : Value :=
  match lookupValue d v with
  | some x => x
  | none => Value.nan

/-- Line `df['churn'] = df['churn'].map({'No': 0, 'Yes': 1})` applied to one
row. -/
def mapChurnColumn (r : Row) : Except String Row :=
  match getCol r "churn" with
  | Except.error e => Except.error e
  | Except.ok v => Except.ok (setCol r "churn" (seriesMapDict churnDict v))

/-- The row-wise part of the cell-4 training preprocessing (lines 66-68):
fill `internet_service`, derive `avg_monthly_charge`, derive
`is_short_contract`.  These lines are element-wise over the frame, so the
whole-frame operations are their row-by-row application. -/
def trainPreprocessRow (r : Row) : Except String Row :=
  match fillInternetService r with
  | Except.error e => Except.error e
  | Except.ok t1 =>
    match addAvgMonthlyCharge t1 with
    | Except.error e => Except.error e
    | Except.ok t2 => addIsShortContract t2

/-- Apply a fallible row transformation to every row, propagating the first
error, as an element-wise pandas operation does. -/
def mapRows (f : Row → Except String Row) : List Row → Except String (List Row)
  | [] => Except.ok []
  | r :: rs =>
    match f r with
    | Except.error e => Except.error e
    | Except.ok r' =>
      match mapRows f rs with
      | Except.error e => Except.error e
      | Except.ok rs' => Except.ok (r' :: rs')

/-- Cell-4 training feature engineering, lines 66-70: row-wise derivations,
then batch `get_dummies` with `drop_first=True` over `contract_type` and
`internet_service`, then the churn label mapping. -/
def trainFeaturize (df : List Row) : Except String (List Row) :=
  match mapRows trainPreprocessRow df with
  | Except.error e => Except.error e
  | Except.ok rows =>
    mapRows mapChurnColumn (get_dummies rows ["contract_type", "internet_service"])

/-- The loop `for col in reference_columns: if col not in new_client.columns:
new_client[col] = 0` of `preprocess_input`. -/
def fillMissingRefCols (d : Row) : List String → Row
  | [] => d
  | c :: cs =>
    fillMissingRefCols (if hasCol d c then d else setCol d c (Value.num 0)) cs

/-- The final `return new_client[reference_columns]`: select exactly the
listed columns in the listed order; a missing column is the Python KeyError. -/
def selectCols (r : Row) : List String → Except String Row
  | [] => Except.ok []
  | c :: cs =>
    match lookupCol r c with
    | some v => (selectCols r cs).map (fun rest => (c, v) :: rest)
    | none => Except.error ("KeyError: " ++ c)

/-- `preprocess_input(new_client, reference_columns)` (notebook lines
164-172).  The first three statements mutate the frame object passed in; the
`pd.get_dummies` call rebinds the local name to a fresh frame, so later
statements no longer touch the caller's object.  The embedding therefore
returns a pair: the function's result (or the uncaught exception), and the
state of the argument object when the call ends — the caller's frame after
whatever in-place mutation had happened by then. -/
def preprocess_input (new_client : Row) (reference_columns : List String) :
    Except String Row × Row :=
  match fillInternetService new_client with
  | Except.error e => (Except.error e, new_client)
  | Except.ok t1 =>
    match addAvgMonthlyCharge t1 with
    | Except.error e => (Except.error e, t1)
    | Except.ok t2 =>
      match addIsShortContract t2 with
      | Except.error e => (Except.error e, t2)
      | Except.ok t3 =>
        (selectCols
          (fillMissingRefCols
            (get_dummies_row t3 ["contract_type", "internet_service"])
            reference_columns)
          reference_columns, t3)

/-- A fitted classifier, abstracting the external library model: an opaque
map from an aligned feature row to the positive-class probability, which the
library guarantees to lie in [0, 1]. -/
structure Model where
  predict_proba : Row → Rat
  proba_nonneg : ∀ r, 0 ≤ predict_proba r
  proba_le_one : ∀ r, predict_proba r ≤ 1

/-- A concrete stand-in classifier (constant probability one half), used to
instantiate theorems at closed inputs. -/
def constModel : Model where
  predict_proba := fun _ => 1 / 2
  proba_nonneg := fun _ => by norm_num
  proba_le_one := fun _ => by norm_num

/-- The f-string `f"Customer Churn Probability: {prob:.2%}"`, with the
percentage rendered exactly rather than rounded to two decimals (the
rounding is presentation glue; the payload is the probability). -/
def formatPercent (p : Rat) : String :=
  "Customer Churn Probability: " ++ toString (p * 100) ++ "%"

/-- `predict_churn_for_client(model, new_client_raw, reference_columns)`
(notebook lines 181-184): preprocess a `.copy()` of the raw record — so all
in-place mutation hits the copy — then report the model's positive-class
probability for the aligned row.  As for `preprocess_input`, the second
component is the caller's object after the call: the raw record itself,
untouched. -/
def predict_churn_for_client (model : Model) (new_client_raw : Row)
    (reference_columns : List String) : Except String String × Row :=
  match (preprocess_input new_client_raw reference_columns).1 with
  | Except.error e => (Except.error e, new_client_raw)
  | Except.ok row =>
    (Except.ok (formatPercent (model.predict_proba row)), new_client_raw)

/-- The dict of cell 8 in insertion order, as `models.items()` iterates it. -/
def modelNames : List String :=
  ["Random Forest", "Logistic Regression", "Gradient Boosting"]

/-- The body of the cell-8 loop `for name, model in models.items(): ...
model.fit(X_train, y_train) ...` abstracted per variant: `fitEval n` is the
fit-and-score of variant `n`, which may raise.  The loop has no exception
handling, so the embedding returns the reports of the variants completed
before the first failure, paired with the uncaught exception if one was
raised; variants after a failure are never reached. -/
def trainEvalLoop {α : Type} (fitEval : String → Except String α) :
    List String → List (String × α) × Option String
  | [] => ([], none)
  | n :: rest =>
    match fitEval n with
    | Except.error e => ([], some e)
    | Except.ok r =>
      match trainEvalLoop fitEval rest with
      | (tail, err) => ((n, r) :: tail, err)

/-! ### Concrete records used to instantiate the theorems -/

/-- The notebook's `new_client` record (lines 193-198): tenure 5, total
charges 250, month-to-month contract, fiber-optic internet. -/
def newClientC1 : Row :=
  [("tenure", Value.num 5), ("total_charges", Value.num 250),
   ("contract_type", Value.str "month-to-month"),
   ("internet_service", Value.str "fiber optic")]

/-- `reference_columns = list(X.columns)` for a training set whose contract
categories are month-to-month / one-year / two-year and whose internet
categories are dsl / fiber optic / unknown: after drop-first encoding and
dropping `customer_id` and `churn`, these are the training feature columns
in order. -/
def refColsTrain : List String :=
  ["tenure", "total_charges", "avg_monthly_charge", "is_short_contract",
   "contract_type_one-year", "contract_type_two-year",
   "internet_service_fiber optic", "internet_service_unknown"]

/-- A three-row training frame covering the categories month-to-month /
one-year / two-year and dsl / fiber optic / unknown. -/
def dfC2 : List Row :=
  [[("customer_id", Value.str "c1"), ("tenure", Value.num 5),
    ("total_charges", Value.num 250), ("contract_type", Value.str "month-to-month"),
    ("internet_service", Value.str "fiber optic"), ("churn", Value.str "Yes")],
   [("customer_id", Value.str "c2"), ("tenure", Value.num 10),
    ("total_charges", Value.num 1000), ("contract_type", Value.str "one-year"),
    ("internet_service", Value.str "dsl"), ("churn", Value.str "No")],
   [("customer_id", Value.str "c3"), ("tenure", Value.num 20),
    ("total_charges", Value.num 4000), ("contract_type", Value.str "two-year"),
    ("internet_service", Value.str "unknown"), ("churn", Value.str "No")]]

/-- The raw fields of the second `dfC2` customer, as an inference call would
present them. -/
def rawC2 : Row :=
  [("tenure", Value.num 10), ("total_charges", Value.num 1000),
   ("contract_type", Value.str "one-year"), ("internet_service", Value.str "dsl")]

/-- An inference record missing the required `contract_type` column. -/
def rowMissingContract : Row :=
  [("tenure", Value.num 4), ("total_charges", Value.num 100),
   ("internet_service", Value.str "dsl")]

/-- A record of a brand-new customer: tenure 0. -/
def rowTenureZero : Row :=
  [("total_charges", Value.num 100), ("tenure", Value.num 0)]

/-- A record whose contract type is a differently cased variant of
month-to-month. -/
def rowCasedContract : Row :=
  [("contract_type", Value.str "Month-To-Month")]

/-- A record whose churn label is already numeric instead of "No"/"Yes". -/
def rowNumericChurn : Row :=
  [("churn", Value.num 1)]

/-- A small inference record with a missing internet-service value, used to
instantiate the schema-alignment and frame-effect theorems. -/
def rowSmall : Row :=
  [("tenure", Value.num 2), ("total_charges", Value.num 10),
   ("contract_type", Value.str "month-to-month"), ("internet_service", Value.nan)]

/-- `rowSmall` after the in-place fill of `internet_service`. -/
def rowSmallFilled : Row :=
  [("tenure", Value.num 2), ("total_charges", Value.num 10),
   ("contract_type", Value.str "month-to-month"),
   ("internet_service", Value.str "unknown")]

/-- `rowSmallFilled` after `avg_monthly_charge` is added in place. -/
def rowSmallAvg : Row :=
  rowSmallFilled ++ [("avg_monthly_charge", Value.num 5)]

/-- `rowSmallAvg` after `is_short_contract` is added in place: the caller's
object as `preprocess_input` leaves it. -/
def rowSmallDone : Row :=
  rowSmallAvg ++ [("is_short_contract", Value.num 1)]

/-- The aligned feature row `preprocess_input` returns for `rowSmall`
against `refColsTrain`. -/
def rowSmallAligned : Row :=
  [("tenure", Value.num 2), ("total_charges", Value.num 10),
   ("avg_monthly_charge", Value.num 5), ("is_short_contract", Value.num 1),
   ("contract_type_one-year", Value.num 0), ("contract_type_two-year", Value.num 0),
   ("internet_service_fiber optic", Value.num 0),
   ("internet_service_unknown", Value.num 0)]

/-- A per-variant fit outcome in which the second classifier fails to fit
with a numerical non-convergence error and the other two fit fine (their
report is abstracted to `0`). -/
def fitEvalC4 : String → Except String Nat :=
  fun n => if n = "Logistic Regression"
    then Except.error "fit failed: non-convergence"
    else Except.ok 0

/-! ### Association-list lemmas -/

/-- On a one-row frame the batch encoder and the single-row encoder agree by
definition. -/
theorem get_dummies_singleton (r : Row) (cols : List String) :
    get_dummies [r] cols = [get_dummies_row r cols] := rfl

theorem lookupCol_setCol_self (r : Row) (c : String) (v : Value) :
    lookupCol (setCol r c v) c = some v := by
  induction r with
  | nil => simp [setCol, lookupCol]
  | cons p rest ih =>
    obtain ⟨c0, v0⟩ := p
    by_cases hc : c0 = c
    · simp [setCol, hc, lookupCol]
    · simp [setCol, hc, lookupCol, ih]

theorem lookupCol_setCol_ne (r : Row) {c c' : String} (v : Value) (h : c' ≠ c) :
    lookupCol (setCol r c v) c' = lookupCol r c' := by
  induction r with
  | nil =>
    simp only [setCol, lookupCol]
    rw [if_neg (fun hc : c = c' => h hc.symm)]
  | cons p rest ih =>
    obtain ⟨c0, v0⟩ := p
    by_cases hc : c0 = c
    · subst hc
      simp only [setCol, if_pos rfl, lookupCol]
      rw [if_neg (fun hc' : c0 = c' => h hc'.symm),
        if_neg (fun hc' : c0 = c' => h hc'.symm)]
    · simp only [setCol, if_neg hc, lookupCol]
      by_cases hc' : c0 = c'
      · simp [hc']
      · simp [hc', ih]

theorem hasCol_setCol_ne (r : Row) {c c' : String} (v : Value) (h : c' ≠ c) :
    hasCol (setCol r c v) c' = hasCol r c' := by
  unfold hasCol
  rw [lookupCol_setCol_ne r v h]

theorem lookupCol_eq_none_of_hasCol_false {r : Row} {c : String}
    (h : hasCol r c = false) : lookupCol r c = none := by
  unfold hasCol at h
  cases hl : lookupCol r c
  · rfl
  · rw [hl] at h
    simp at h

theorem exists_lookupCol_of_hasCol {r : Row} {c : String}
    (h : hasCol r c = true) : ∃ v, lookupCol r c = some v := by
  unfold hasCol at h
  cases hl : lookupCol r c
  · rw [hl] at h
    simp at h
  · exact ⟨_, rfl⟩

theorem lookupCol_fillMissing (cols : List String) (d : Row) (c : String) :
    lookupCol (fillMissingRefCols d cols) c =
      match lookupCol d c with
      | some v => some v
      | none => if c ∈ cols then some (Value.num 0) else none := by
  induction cols generalizing d with
  | nil => cases hl : lookupCol d c <;> simp [fillMissingRefCols, hl]
  | cons c0 rest ih =>
    by_cases h0 : hasCol d c0
    · rw [show fillMissingRefCols d (c0 :: rest) = fillMissingRefCols d rest by
        simp [fillMissingRefCols, h0]]
      rw [ih d]
      cases hl : lookupCol d c
      · have hne : c ≠ c0 := by
          intro hc
          subst hc
          obtain ⟨v, hv⟩ := exists_lookupCol_of_hasCol (by exact h0)
          rw [hl] at hv
          cases hv
        simp [List.mem_cons, hne]
      · rfl
    · have h0' : hasCol d c0 = false := by simpa using h0
      rw [show fillMissingRefCols d (c0 :: rest) =
            fillMissingRefCols (setCol d c0 (Value.num 0)) rest by
        simp [fillMissingRefCols, h0']]
      rw [ih (setCol d c0 (Value.num 0))]
      by_cases hc : c = c0
      · subst hc
        rw [lookupCol_setCol_self, lookupCol_eq_none_of_hasCol_false h0']
        simp
      · rw [lookupCol_setCol_ne d (Value.num 0) hc]
        cases hl : lookupCol d c
        · simp [List.mem_cons, hc]
        · rfl

theorem selectCols_eq_of_lookup (cols : List String) (r : Row) (f : String → Value)
    (h : ∀ c ∈ cols, lookupCol r c = some (f c)) :
    selectCols r cols = Except.ok (cols.map fun c => (c, f c)) := by
  induction cols with
  | nil => rfl
  | cons c cs ih =>
    have hc := h c (by simp)
    simp only [selectCols, hc, List.map_cons]
    rw [ih (fun c' hc' => h c' (by simp [hc']))]
    rfl

theorem lookupCol_map_pair (cols : List String) (f : String → Value) (c : String)
    (h : c ∈ cols) :
    lookupCol (cols.map fun c => (c, f c)) c = some (f c) := by
  induction cols with
  | nil => cases h
  | cons c0 cs ih =>
    by_cases hc : c0 = c
    · subst hc
      simp [lookupCol]
    · have hcs : c ∈ cs := by
        rcases List.mem_cons.mp h with h' | h'
        · exact absurd h'.symm hc
        · exact h'
      simp [lookupCol, hc, ih hcs]

/-- The caller's raw record is returned unchanged by
`predict_churn_for_client`, in every branch: the function preprocesses a
copy. -/
theorem predict_snd_eq (m : Model) (raw : Row) (cols : List String) :
    (predict_churn_for_client m raw cols).2 = raw := by
  unfold predict_churn_for_client
  cases (preprocess_input raw cols).1 <;> rfl

theorem map_fst_map_pair (cols : List String) (f : String → Value) :
    (cols.map fun c => (c, f c)).map Prod.fst = cols := by
  induction cols with
  | nil => rfl
  | cons c cs ih => simp [ih]

/-! ### Evaluation-form lemmas for the embedded source lines -/

theorem fillInternetService_error {r : Row}
    (h : lookupCol r "internet_service" = none) :
    fillInternetService r = Except.error ("KeyError: " ++ "internet_service") := by
  simp [fillInternetService, getCol, h]

theorem fillInternetService_ok_form {r : Row} {v : Value}
    (h : lookupCol r "internet_service" = some v) :
    fillInternetService r = Except.ok (setCol r "internet_service"
      (if v = Value.nan then Value.str "unknown" else v)) := by
  simp [fillInternetService, getCol, h]

theorem addAvgMonthlyCharge_error_tc {r : Row}
    (h : lookupCol r "total_charges" = none) :
    addAvgMonthlyCharge r = Except.error ("KeyError: " ++ "total_charges") := by
  simp [addAvgMonthlyCharge, getCol, h]

theorem addAvgMonthlyCharge_error_tenure {r : Row} {tc : Value}
    (htc : lookupCol r "total_charges" = some tc)
    (h : lookupCol r "tenure" = none) :
    addAvgMonthlyCharge r = Except.error ("KeyError: " ++ "tenure") := by
  simp [addAvgMonthlyCharge, getCol, htc, h]

theorem addAvgMonthlyCharge_ok_form {r : Row} {tc ten : Value}
    (htc : lookupCol r "total_charges" = some tc)
    (ht : lookupCol r "tenure" = some ten) :
    addAvgMonthlyCharge r = Except.ok (setCol r "avg_monthly_charge"
      (valueDiv tc (replaceZeroNaN ten))) := by
  simp [addAvgMonthlyCharge, getCol, htc, ht]

theorem addIsShortContract_error {r : Row}
    (h : lookupCol r "contract_type" = none) :
    addIsShortContract r = Except.error ("KeyError: " ++ "contract_type") := by
  simp [addIsShortContract, getCol, h]

theorem preprocess_fst_error_fill {r : Row} {cols : List String} {e : String}
    (h : fillInternetService r = Except.error e) :
    (preprocess_input r cols).1 = Except.error e := by
  simp [preprocess_input, h]

theorem preprocess_fst_error_avg {r t1 : Row} {cols : List String} {e : String}
    (h1 : fillInternetService r = Except.ok t1)
    (h2 : addAvgMonthlyCharge t1 = Except.error e) :
    (preprocess_input r cols).1 = Except.error e := by
  simp [preprocess_input, h1, h2]

theorem preprocess_fst_error_short {r t1 t2 : Row} {cols : List String} {e : String}
    (h1 : fillInternetService r = Except.ok t1)
    (h2 : addAvgMonthlyCharge t1 = Except.ok t2)
    (h3 : addIsShortContract t2 = Except.error e) :
    (preprocess_input r cols).1 = Except.error e := by
  simp [preprocess_input, h1, h2, h3]

theorem preprocess_input_ok_form {r t1 t2 t3 : Row} {cols : List String}
    (h1 : fillInternetService r = Except.ok t1)
    (h2 : addAvgMonthlyCharge t1 = Except.ok t2)
    (h3 : addIsShortContract t2 = Except.ok t3) :
    preprocess_input r cols =
      (selectCols (fillMissingRefCols
        (get_dummies_row t3 ["contract_type", "internet_service"]) cols) cols,
       t3) := by
  simp [preprocess_input, h1, h2, h3]

/-- An error result of `preprocess_input` propagates unchanged through
`predict_churn_for_client`. -/
theorem predict_fst_error (m : Model) (r : Row) (cols : List String) (e : String)
    (h : (preprocess_input r cols).1 = Except.error e) :
    (predict_churn_for_client m r cols).1 = Except.error e := by
  unfold predict_churn_for_client
  rw [h]

section

attribute [local semireducible] Rat.mul Rat.inv

/-- Claim C5: for every record with tenure 0, the derived
`avg_monthly_charge` is the missing value NaN — the call succeeds, it does
not raise and does not produce zero — and for tenure t that is not 0 it is
`total_charges / t`.  The single definition `addAvgMonthlyCharge` embeds the
identical line of the training path (cell-4 line 67) and of
`preprocess_input` (line 166), so this settles both paths. -/
theorem C5_avg_monthly_charge_policy (r : Row) (tc t : Rat)
    (htc : lookupCol r "total_charges" = some (Value.num tc))
    (ht : lookupCol r "tenure" = some (Value.num t)) :
    ∃ r', addAvgMonthlyCharge r = Except.ok r' ∧
      (t = 0 → lookupCol r' "avg_monthly_charge" = some Value.nan) ∧
      (t ≠ 0 → lookupCol r' "avg_monthly_charge" = some (Value.num (tc / t))) := by
  refine ⟨setCol r "avg_monthly_charge"
    (valueDiv (Value.num tc) (replaceZeroNaN (Value.num t))), ?_, ?_, ?_⟩
  · simp [addAvgMonthlyCharge, getCol, htc, ht]
  · intro h0
    subst h0
    rw [lookupCol_setCol_self]
    simp [replaceZeroNaN, valueDiv]
  · intro h0
    rw [lookupCol_setCol_self]
    rw [show replaceZeroNaN (Value.num t) = Value.num t from by
      unfold replaceZeroNaN
      rw [if_neg (by simp [h0])]]
    simp [valueDiv]

/-- Witness for C5: the brand-new customer `rowTenureZero` (tenure 0, total
charges 100) gets a NaN average monthly charge without an error. -/
theorem C5_avg_monthly_charge_policy_witness :
    ∃ r', addAvgMonthlyCharge rowTenureZero = Except.ok r' ∧
      ((0:Rat) = 0 → lookupCol r' "avg_monthly_charge" = some Value.nan) ∧
      ((0:Rat) ≠ 0 → lookupCol r' "avg_monthly_charge" = some (Value.num (100 / 0))) :=
  C5_avg_monthly_charge_policy rowTenureZero 100 0 (by decide) (by decide)

/-- Claim C8: the derived `is_short_contract` is 0 or 1, and it is 1 exactly
when the record's `contract_type` is the string "month-to-month"; any other
string, including differently cased variants, gives 0.  The single
definition `addIsShortContract` embeds the identical line of the training
path (cell-4 line 68) and of `preprocess_input` (line 167). -/
theorem C8_is_short_contract_indicator (r : Row) (v : Value)
    (h : lookupCol r "contract_type" = some v) :
    ∃ r', addIsShortContract r = Except.ok r' ∧
      (lookupCol r' "is_short_contract" = some (Value.num 0) ∨
        lookupCol r' "is_short_contract" = some (Value.num 1)) ∧
      (lookupCol r' "is_short_contract" = some (Value.num 1) ↔
        v = Value.str "month-to-month") := by
  refine ⟨setCol r "is_short_contract" (isShortContract v), ?_, ?_, ?_⟩
  · simp [addIsShortContract, getCol, h]
  · rw [lookupCol_setCol_self]
    by_cases hv : v = Value.str "month-to-month"
    · right
      simp [isShortContract, hv]
    · left
      simp [isShortContract, hv]
  · rw [lookupCol_setCol_self]
    by_cases hv : v = Value.str "month-to-month"
    · simp [isShortContract, hv]
    · simp only [isShortContract, if_neg hv]
      constructor
      · intro hx
        exfalso
        have : (0:Rat) = 1 := by
          have := Option.some.inj hx
          exact Value.num.inj this
        norm_num at this
      · intro hx
        exact absurd hx hv

/-- Witness for C8: the cased variant "Month-To-Month" yields indicator 0,
not 1. -/
theorem C8_is_short_contract_indicator_witness :
    ∃ r', addIsShortContract rowCasedContract = Except.ok r' ∧
      (lookupCol r' "is_short_contract" = some (Value.num 0) ∨
        lookupCol r' "is_short_contract" = some (Value.num 1)) ∧
      (lookupCol r' "is_short_contract" = some (Value.num 1) ↔
        Value.str "Month-To-Month" = Value.str "month-to-month") :=
  C8_is_short_contract_indicator rowCasedContract (Value.str "Month-To-Month")
    (by decide)

/-- Claim C10: in the training path's label mapping `df['churn'].map({'No':
0, 'Yes': 1})`, a churn value that is neither exactly "No" nor exactly "Yes"
— a typo, an already-numeric label, NaN — maps to the missing value NaN: no
error is raised, the value is not preserved as-is, and nothing enforces a
binary label at this step. -/
theorem C10_churn_label_map (r : Row) (v : Value)
    (h : lookupCol r "churn" = some v)
    (hNo : v ≠ Value.str "No") (hYes : v ≠ Value.str "Yes") :
    ∃ r', mapChurnColumn r = Except.ok r' ∧
      lookupCol r' "churn" = some Value.nan := by
  refine ⟨setCol r "churn" (seriesMapDict churnDict v), ?_, ?_⟩
  · simp [mapChurnColumn, getCol, h]
  · rw [lookupCol_setCol_self]
    simp [seriesMapDict, churnDict, lookupValue, Ne.symm hNo, Ne.symm hYes]

/-- Witness for C10: an already-numeric churn label 1 is mapped to NaN, not
kept as 1. -/
theorem C10_churn_label_map_witness :
    ∃ r', mapChurnColumn rowNumericChurn = Except.ok r' ∧
      lookupCol r' "churn" = some Value.nan :=
  C10_churn_label_map rowNumericChurn (Value.num 1) (by decide) (by decide)
    (by decide)

/-- Claim C7: the Inference Adapter is idempotent.  A call to
`predict_churn_for_client` leaves the caller's raw record unchanged (it
preprocesses a copy), so a second call on the same raw record — i.e. on the
record as the first call left it — with the same reference columns and the
same fitted model produces the same aligned feature row (the
`preprocess_input` result) and the same reported probability string. -/
theorem C7_inference_idempotent (m : Model) (raw : Row) (cols : List String) :
    predict_churn_for_client m (predict_churn_for_client m raw cols).2 cols =
      predict_churn_for_client m raw cols ∧
    preprocess_input (predict_churn_for_client m raw cols).2 cols =
      preprocess_input raw cols := by
  rw [predict_snd_eq]
  exact ⟨rfl, rfl⟩

/-- Claim C9: `preprocess_input` mutates the frame passed to it in place —
after a successful call the caller's object holds the filled
`internet_service` and the added `avg_monthly_charge` and
`is_short_contract` columns (the state `t3` reached by the three in-place
statements) — while `predict_churn_for_client` copies the raw record before
calling it, so the caller's raw record is unchanged after every inference
call. -/
theorem C9_inplace_mutation_and_copy (r t1 t2 t3 : Row) (cols : List String)
    (m : Model)
    (h1 : fillInternetService r = Except.ok t1)
    (h2 : addAvgMonthlyCharge t1 = Except.ok t2)
    (h3 : addIsShortContract t2 = Except.ok t3) :
    (preprocess_input r cols).2 = t3 ∧
    (predict_churn_for_client m r cols).2 = r := by
  refine ⟨?_, predict_snd_eq m r cols⟩
  simp [preprocess_input, h1, h2, h3]

/-- Witness for C9: on `rowSmall` the caller's frame ends as `rowSmallDone`
(internet service filled to "unknown", average charge 5 and short-contract
flag 1 appended), while the raw record handed to the prediction helper is
untouched. -/
theorem C9_inplace_mutation_and_copy_witness :
    (preprocess_input rowSmall refColsTrain).2 = rowSmallDone ∧
    (predict_churn_for_client constModel rowSmall refColsTrain).2 = rowSmall :=
  C9_inplace_mutation_and_copy rowSmall rowSmallFilled rowSmallAvg rowSmallDone
    refColsTrain constModel (by rfl) (by rfl) (by rfl)

/-- Claim C1 (code bug): evaluating the code on the notebook's own
`new_client` record against the reference schema of the claim.  The derived
features `avg_monthly_charge = 50` and `is_short_contract = 1` come out as
the claim states, and all indicator columns other than "fiber optic" are 0
— but the "fiber optic" indicator itself is also 0, not the 1 the claim
requires: `pd.get_dummies` on the one-row frame sees a single category per
encoded column, `drop_first=True` drops it, and the alignment loop then
fills the indicator with 0. -/
theorem C1_new_client_evaluation :
    (preprocess_input newClientC1 refColsTrain).1.toOption =
      some [("tenure", Value.num 5), ("total_charges", Value.num 250),
        ("avg_monthly_charge", Value.num 50), ("is_short_contract", Value.num 1),
        ("contract_type_one-year", Value.num 0),
        ("contract_type_two-year", Value.num 0),
        ("internet_service_fiber optic", Value.num 0),
        ("internet_service_unknown", Value.num 0)] ∧
    ((preprocess_input newClientC1 refColsTrain).1.toOption.bind
      (fun row => lookupCol row "internet_service_fiber optic")) =
        some (Value.num 0) := by
  exact ⟨by decide, by decide⟩

/-- Claim C2 (code bug): the training-path features and the single-record
path disagree.  Over the training frame `dfC2` the reference columns are
exactly `refColsTrain`, and the second customer (a one-year, dsl contract)
gets `contract_type_one-year = 1`; `preprocess_input` applied to that same
customer's raw record alone, aligned to the same reference columns, yields
`contract_type_one-year = 0`, because the single-row `pd.get_dummies` drops
the record's own category as the first category. -/
theorem C2_training_vs_inference_divergence :
    ((trainFeaturize dfC2).toOption.map (fun rows =>
      (dropCols (rows.headD []) ["customer_id", "churn"]).map Prod.fst)) =
        some refColsTrain ∧
    ((trainFeaturize dfC2).toOption.bind (fun rows =>
      (rows.get? 1).bind (fun r => lookupCol r "contract_type_one-year"))) =
        some (Value.num 1) ∧
    ((preprocess_input rawC2 refColsTrain).1.toOption.bind
      (fun row => lookupCol row "contract_type_one-year")) =
        some (Value.num 0) := by
  exact ⟨by decide, by decide, by decide⟩

/-- Counterexample to claim C4 as stated: with the second of the three
classifier variants failing to fit, the cell-8 loop — which has no exception
handling — stops at the failure.  Only the first variant's report exists,
the error escapes uncaught, and in particular the third variant is never
fitted or evaluated, contradicting "the remaining variants are still fitted
and evaluated". -/
theorem C4_counterexample :
    trainEvalLoop fitEvalC4 modelNames =
      ([("Random Forest", 0)], some "fit failed: non-convergence") ∧
    ¬ ∃ rep : Nat, ("Gradient Boosting", rep) ∈
      (trainEvalLoop fitEvalC4 modelNames).1 := by
  refine ⟨by decide, ?_⟩
  rintro ⟨rep, hrep⟩
  rw [show (trainEvalLoop fitEvalC4 modelNames).1 = [("Random Forest", 0)] from
    by decide] at hrep
  simp only [List.mem_singleton, Prod.mk.injEq] at hrep
  exact absurd hrep.1 (by decide)

/-- Claim C4 as amended: if fitting one variant fails, the loop aborts at
that variant — the variants before it are fitted, evaluated and reported,
the failure propagates as an uncaught exception rather than a per-variant
failure entry, and the variants after it are not fitted or evaluated. -/
theorem C4_fit_failure_aborts_loop {α : Type} (fitEval : String → Except String α)
    (pre post : List String) (n e : String)
    (hpre : ∀ m ∈ pre, (fitEval m).isOk = true)
    (hn : fitEval n = Except.error e) :
    (trainEvalLoop fitEval (pre ++ n :: post)).1.map Prod.fst = pre ∧
    (trainEvalLoop fitEval (pre ++ n :: post)).2 = some e := by
  induction pre with
  | nil => simp [trainEvalLoop, hn]
  | cons m ms ih =>
    have hm := hpre m (by simp)
    cases hfm : fitEval m with
    | error e' =>
      rw [hfm] at hm
      simp [Except.isOk, Except.toBool] at hm
    | ok rep =>
      have ihh := ih (fun m' hm' => hpre m' (by simp [hm']))
      simp only [List.cons_append, trainEvalLoop, hfm]
      cases hloop : trainEvalLoop fitEval (ms ++ n :: post) with
      | mk tail err =>
        rw [hloop] at ihh
        simp only [List.map_cons] at ihh ⊢
        exact ⟨by rw [ihh.1], ihh.2⟩

/-- Witness for the amended C4 at the concrete failing run `fitEvalC4`:
Random Forest is reported, the non-convergence error escapes, Gradient
Boosting is never reached. -/
theorem C4_fit_failure_aborts_loop_witness :
    (trainEvalLoop fitEvalC4 modelNames).1.map Prod.fst = ["Random Forest"] ∧
    (trainEvalLoop fitEvalC4 modelNames).2 = some "fit failed: non-convergence" :=
  C4_fit_failure_aborts_loop fitEvalC4 ["Random Forest"] ["Gradient Boosting"]
    "Logistic Regression" "fit failed: non-convergence" (by decide) (by rfl)

/-- Claim C3: an inference call on a raw record lacking one of the four
required raw columns — tenure, total_charges, contract_type,
internet_service — fails with the KeyError naming a missing required column
(the distinguishable missing-field error pandas raises at the first access)
and never returns a probability. -/
theorem C3_missing_required_field (m : Model) (r : Row) (cols : List String)
    (h : hasCol r "tenure" = false ∨ hasCol r "total_charges" = false ∨
      hasCol r "contract_type" = false ∨ hasCol r "internet_service" = false) :
    ∃ c, (c = "tenure" ∨ c = "total_charges" ∨ c = "contract_type" ∨
        c = "internet_service") ∧
      hasCol r c = false ∧
      (predict_churn_for_client m r cols).1 = Except.error ("KeyError: " ++ c) ∧
      ∀ s, (predict_churn_for_client m r cols).1 ≠ Except.ok s := by
  cases hInt : hasCol r "internet_service" with
  | false =>
    have hpre : (preprocess_input r cols).1 =
        Except.error ("KeyError: " ++ "internet_service") :=
      preprocess_fst_error_fill
        (fillInternetService_error (lookupCol_eq_none_of_hasCol_false hInt))
    have hpred := predict_fst_error m r cols _ hpre
    exact ⟨"internet_service", by simp, hInt, hpred,
      fun s hs => by rw [hpred] at hs; cases hs⟩
  | true =>
    obtain ⟨vI, hvI⟩ := exists_lookupCol_of_hasCol hInt
    have h1 := fillInternetService_ok_form hvI
    set t1 := setCol r "internet_service"
      (if vI = Value.nan then Value.str "unknown" else vI) with ht1
    cases hTC : hasCol r "total_charges" with
    | false =>
      have hTCl : lookupCol t1 "total_charges" = none := by
        rw [ht1, lookupCol_setCol_ne r _ (by decide)]
        exact lookupCol_eq_none_of_hasCol_false hTC
      have hpre : (preprocess_input r cols).1 =
          Except.error ("KeyError: " ++ "total_charges") :=
        preprocess_fst_error_avg h1 (addAvgMonthlyCharge_error_tc hTCl)
      have hpred := predict_fst_error m r cols _ hpre
      exact ⟨"total_charges", by simp, hTC, hpred,
        fun s hs => by rw [hpred] at hs; cases hs⟩
    | true =>
      obtain ⟨vTC, hvTC⟩ := exists_lookupCol_of_hasCol hTC
      have hTCl : lookupCol t1 "total_charges" = some vTC := by
        rw [ht1, lookupCol_setCol_ne r _ (by decide)]
        exact hvTC
      cases hTen : hasCol r "tenure" with
      | false =>
        have hTenl : lookupCol t1 "tenure" = none := by
          rw [ht1, lookupCol_setCol_ne r _ (by decide)]
          exact lookupCol_eq_none_of_hasCol_false hTen
        have hpre : (preprocess_input r cols).1 =
            Except.error ("KeyError: " ++ "tenure") :=
          preprocess_fst_error_avg h1
            (addAvgMonthlyCharge_error_tenure hTCl hTenl)
        have hpred := predict_fst_error m r cols _ hpre
        exact ⟨"tenure", by simp, hTen, hpred,
          fun s hs => by rw [hpred] at hs; cases hs⟩
      | true =>
        obtain ⟨vTen, hvTen⟩ := exists_lookupCol_of_hasCol hTen
        have hTenl : lookupCol t1 "tenure" = some vTen := by
          rw [ht1, lookupCol_setCol_ne r _ (by decide)]
          exact hvTen
        cases hCT : hasCol r "contract_type" with
        | false =>
          have h2 := addAvgMonthlyCharge_ok_form hTCl hTenl
          set t2 := setCol t1 "avg_monthly_charge"
            (valueDiv vTC (replaceZeroNaN vTen)) with ht2
          have hCTl : lookupCol t2 "contract_type" = none := by
            rw [ht2, lookupCol_setCol_ne t1 _ (by decide), ht1,
              lookupCol_setCol_ne r _ (by decide)]
            exact lookupCol_eq_none_of_hasCol_false hCT
          have hpre : (preprocess_input r cols).1 =
              Except.error ("KeyError: " ++ "contract_type") :=
            preprocess_fst_error_short h1 h2 (addIsShortContract_error hCTl)
          have hpred := predict_fst_error m r cols _ hpre
          exact ⟨"contract_type", by simp, hCT, hpred,
            fun s hs => by rw [hpred] at hs; cases hs⟩
        | true =>
          rcases h with h | h | h | h
          · rw [hTen] at h
            exact Bool.noConfusion h
          · rw [hTC] at h
            exact Bool.noConfusion h
          · rw [hCT] at h
            exact Bool.noConfusion h
          · rw [hInt] at h
            exact Bool.noConfusion h

/-- Witness for C3: a record missing `contract_type` makes the inference
call fail with the KeyError for `contract_type` and return no probability. -/
theorem C3_missing_required_field_witness :
    ∃ c, (c = "tenure" ∨ c = "total_charges" ∨ c = "contract_type" ∨
        c = "internet_service") ∧
      hasCol rowMissingContract c = false ∧
      (predict_churn_for_client constModel rowMissingContract []).1 =
        Except.error ("KeyError: " ++ c) ∧
      ∀ s, (predict_churn_for_client constModel rowMissingContract []).1 ≠
        Except.ok s :=
  C3_missing_required_field constModel rowMissingContract [] (by decide)

/-- Claim C6: whenever `preprocess_input` returns a table, that table has
exactly the reference columns, in the reference order (so exactly N columns
for a reference list of length N), and each column holds the transformed
record's value when the transformation produced that column and the
inserted 0 otherwise — for every input record and every reference-column
list.  The transformed one-row table is `get_dummies_row` applied to `mut`,
the record state after the three derivation steps, which `preprocess_input`
also returns. -/
theorem C6_schema_alignment (r : Row) (cols : List String) (row tmut : Row)
    (h : preprocess_input r cols = (Except.ok row, tmut)) :
    row.map Prod.fst = cols ∧
    ∀ c ∈ cols, lookupCol row c =
      some ((lookupCol
        (get_dummies_row tmut ["contract_type", "internet_service"]) c).getD
          (Value.num 0)) := by
  cases h1 : fillInternetService r with
  | error e =>
    have hfst : (preprocess_input r cols).1 = Except.ok row := by rw [h]
    rw [preprocess_fst_error_fill h1] at hfst
    exact Except.noConfusion hfst
  | ok t1 =>
    cases h2 : addAvgMonthlyCharge t1 with
    | error e =>
      have hfst : (preprocess_input r cols).1 = Except.ok row := by rw [h]
      rw [preprocess_fst_error_avg h1 h2] at hfst
      exact Except.noConfusion hfst
    | ok t2 =>
      cases h3 : addIsShortContract t2 with
      | error e =>
        have hfst : (preprocess_input r cols).1 = Except.ok row := by rw [h]
        rw [preprocess_fst_error_short h1 h2 h3] at hfst
        exact Except.noConfusion hfst
      | ok t3 =>
        rw [preprocess_input_ok_form h1 h2 h3] at h
        have hsel : selectCols (fillMissingRefCols
            (get_dummies_row t3 ["contract_type", "internet_service"]) cols) cols =
            Except.ok (cols.map fun c => (c,
              (lookupCol (get_dummies_row t3
                ["contract_type", "internet_service"]) c).getD (Value.num 0))) := by
          apply selectCols_eq_of_lookup
          intro c hc
          rw [lookupCol_fillMissing]
          cases hd : lookupCol
              (get_dummies_row t3 ["contract_type", "internet_service"]) c
          · simp [hc]
          · simp
        rw [hsel] at h
        injection h with hrowE hmut
        injection hrowE with hrow
        subst hmut
        subst hrow
        exact ⟨map_fst_map_pair cols _, fun c hc => lookupCol_map_pair cols _ c hc⟩

/-- Witness for C6: `preprocess_input` on `rowSmall` against the eight
reference columns returns exactly those eight columns in order, with the
four indicator columns — absent after the single-row transformation —
inserted as 0. -/
theorem C6_schema_alignment_witness :
    rowSmallAligned.map Prod.fst = refColsTrain ∧
    ∀ c ∈ refColsTrain, lookupCol rowSmallAligned c =
      some ((lookupCol
        (get_dummies_row rowSmallDone ["contract_type", "internet_service"]) c).getD
          (Value.num 0)) :=
  C6_schema_alignment rowSmall refColsTrain rowSmallAligned rowSmallDone (by rfl)

end

end TelecomChurn
